import Mathlib

/-!
# Verification of the mcpeeps coordinator UI (`src/ui-nuxt/pages/index.vue`)

This file gives a shallow embedding of the `<script setup>` logic of the
coordinator page.  The component's reactive refs become the fields of a
`UIState` record, and every function of the component becomes a pure state
transformer.  Network calls (`fetch` through `fetchJson`) are modelled by
passing the outcome of the request as an explicit `Except String α`
argument: `Except.error e` is a rejected/thrown fetch whose error message
is `e`, and `Except.ok a` is a successful JSON response `a`.

JavaScript truthiness on the optional JSON fields is modelled explicitly
(`jsOrNat`, `jsOrStr` for `x || d`, `jsNullishNat` for `x ?? d`,
`optTruthy` for `if (x)` on an optional string).
-/

set_option maxRecDepth 8192

namespace MCPeeps

/-- The `ResultVariant` union type of the component. -/
inductive ResultVariant where
  | info
  | success
  | error
  | warning
deriving DecidableEq, Repr

/-- The `ResultState` interface: the contents of the result panel. -/
structure ResultState where
  heading : String
  contextId : Option String
  statusText : Option String
  description : Option String
  details : Option (List String)
  responses : Option (List String)
  variant : ResultVariant
  progress : Option ℚ
deriving DecidableEq, Repr

/-- The `CoordinatorMessage` interface: one entry of the message feed.
`text`, `timestamp` and `task_id` are optional in the source
(`string | null` collapses to `Option String` here). -/
structure CoordinatorMessage where
  agent_name : String
  role : String
  text : Option String
  status : String
  timestamp : Option String
  task_id : Option String
deriving DecidableEq, Repr

/-- The `TriggerResponse` interface returned by the `/trigger` endpoint.
In the source `agents` is `number | string`; only its decimal rendering is
ever used, so it is modelled as a `Nat`. -/
structure TriggerResponse where
  status : String
  message : Option String
  context_id : String
  agents : Option Nat
  responses : Option (List String)
  rounds_completed : Option Nat
  max_rounds : Option Nat
deriving DecidableEq, Repr

/-- The `ConversationStatus` interface returned by `/conversation-status`. -/
structure ConversationStatus where
  status : String
  round : Option Nat
  max_rounds : Option Nat
  agents_contacted : Option Nat
  total_messages : Option Nat
  error : Option String
deriving DecidableEq, Repr

/-- The `MessagesResponse` interface returned by `/messages`.  The TS type
declares `messages` as required, but the code guards with
`data.messages || []` and `!data.messages`, so it is optional here. -/
structure MessagesResponse where
  error : Option String
  messages : Option (List CoordinatorMessage)
deriving DecidableEq, Repr

/-- The `rounds` ref: `{ completed, max, visible }`. -/
structure RoundsState where
  completed : Nat
  max : Nat
  visible : Bool
deriving DecidableEq, Repr

/-- The reactive state of the component.  Each field is one of the refs
declared in the script (the display-only `agentEmojis` map and the
transient `messagesLoading` spinner flag are carried along unchanged to
mirror the source; `agentEmojis` itself is omitted since no verified
function reads it).  The two `setInterval` handles are modelled by
whether the interval is active (`messagesPoller : Bool`) and, for the
conversation poller, which context it polls
(`conversationPoller : Option String`). -/
structure UIState where
  contextInput : String
  message : String
  isContextReadonly : Bool
  currentContextId : String
  result : Option ResultState
  isTriggering : Bool
  messages : List CoordinatorMessage
  messagesLoading : Bool
  messagesInfo : String
  messagesError : Option String
  lastMessagesKey : String
  rounds : RoundsState
  messagesPoller : Bool
  conversationPoller : Option String
deriving DecidableEq, Repr

/-- JavaScript `v || dflt` on an optional number (`0` is falsy). -/
def jsOrNat (v : Option Nat) (dflt : Nat) : Nat :=
  match v with
  | some n => if n = 0 then dflt else n
  | none => dflt

/-- JavaScript `v ?? dflt` on an optional number (only `null`/`undefined`
fall back). -/
def jsNullishNat (v : Option Nat) (dflt : Nat) : Nat :=
  v.getD dflt

/-- JavaScript `v || dflt` on an optional string (`""` is falsy). -/
def jsOrStr (v : Option String) (dflt : String) : String :=
  match v with
  | some s => if s = "" then dflt else s
  | none => dflt

/-- JavaScript truthiness of an optional string: `undefined` and `""` are
falsy, every other string is truthy. -/
def optTruthy (v : Option String) : Bool :=
  match v with
  | some s => s != ""
  | none => false

/-- The initial text of `messagesInfo`, also restored by
`startNewConversation` and by `loadMessages` without a context. -/
def defaultMessagesInfo : String := "Provide a context ID and refresh to see messages. ✨"

/-- The ASCII whitespace characters removed by the JavaScript
`String.prototype.trim` builtin (the Unicode space classes it also strips
are irrelevant here). -/
def jsWhitespaceChar (c : Char) : Bool :=
  c = ' ' || c = '\t' || c = '\n' || c = '\r' || c = '\x0b' || c = '\x0c'

/-- Drop the elements satisfying `p` from both ends of a list. -/
def listTrim (p : α → Bool) (l : List α) : List α :=
  ((l.dropWhile p).reverse.dropWhile p).reverse

/-- Model of the JavaScript `String.prototype.trim` builtin: drop leading
and trailing whitespace. -/
def jsTrim (s : String) : String :=
  String.mk (listTrim jsWhitespaceChar s.data)

/-- Model of the JavaScript `String.prototype.startsWith` builtin. -/
def jsStartsWith (s pre : String) : Bool :=
  pre.data.isPrefixOf s.data

/-- `messageHasText` computed ref: `message.value.trim().length > 0`. -/
def messageHasText (s : UIState) : Bool :=
  decide (0 < (jsTrim s.message).length)

/-- `apiBase` initialization: `.replace(/\/+$/, '')` strips every trailing
slash from the configured base URL. -/
def stripTrailingSlashes (s : String) : String :=
  String.mk ((s.data.reverse.dropWhile (fun c => c = '/')).reverse)

/-- `buildUrl`: absolute `http(s)` paths and an empty `apiBase` pass
through unchanged; otherwise the stripped base is prepended, inserting a
`/` unless the path already starts with one. -/
def buildUrl (apiBase path : String) : String :=
  if jsStartsWith path "http://" || jsStartsWith path "https://" || apiBase = "" then
    path
  else
    apiBase ++ (if jsStartsWith path "/" then path else "/" ++ path)

/-- `statusIcon`: the switch mapping a message status to its indicator
(the string `"spinner"` makes the template render the CSS spinner). -/
def statusIcon (status : String) : String :=
  if status = "completed" then "✅"
  else if status = "failed" then "❌"
  else if status = "working" then "⏳"
  else if status = "submitted" then "spinner"
  else if status = "pending" then "⏸️"
  else "❓"

/-- The base card class pushed first by `messageCardClass`. -/
def baseCardClass : String :=
  "rounded-2xl border border-slate-200/80 bg-white/95 p-4 shadow-sm shadow-slate-200/50 transition-all duration-200 hover:-translate-y-0.5 hover:shadow-md"

/-- The `highlightStatuses` array of `messageCardClass`. -/
def highlightStatuses : List String :=
  ["completed", "failed", "working", "submitted", "pending"]

/-- `messageCardClass`: card classes for one message, from its status and
role. -/
def messageCardClass (status role : String) : String :=
  let classes := [baseCardClass]
  let classes :=
    if highlightStatuses.contains status then classes
    else classes ++ [if role = "user" then "ring-1 ring-sky-200/60" else "ring-1 ring-indigo-200/60"]
  let classes :=
    if status = "completed" then classes ++ ["border-emerald-200/80 bg-emerald-50/70 ring-1 ring-emerald-200/70"]
    else if status = "failed" then classes ++ ["border-rose-200/80 bg-rose-50/70 ring-1 ring-rose-200/70"]
    else if status = "working" then classes ++ ["border-amber-200/80 bg-amber-50/70 ring-1 ring-amber-200/70"]
    else if status = "submitted" then classes ++ ["border-cyan-200/80 bg-cyan-50/70 ring-1 ring-cyan-200/70"]
    else if status = "pending" then classes ++ ["border-slate-200/80 bg-slate-50/70 ring-1 ring-slate-200/70"]
    else classes
  String.intercalate " " classes

/-- `setActiveContext`: trim the id, store it, and lock the input when it
is non-empty. -/
def setActiveContext (s : UIState) (contextId : String) : UIState :=
  let normalized := jsTrim contextId
  { s with
    currentContextId := normalized
    isContextReadonly := decide (0 < normalized.length)
    contextInput := normalized }

/-- `resetRoundsDisplay`. -/
def resetRoundsDisplay (s : UIState) : UIState :=
  { s with rounds := ⟨0, 3, false⟩ }

/-- `updateRoundsDisplay`. -/
def updateRoundsDisplay (s : UIState) (completed mx : Nat) : UIState :=
  { s with rounds := ⟨completed, mx, true⟩ }

/-- `stopMessagesPolling`. -/
def stopMessagesPolling (s : UIState) : UIState :=
  { s with messagesPoller := false }

/-- `stopConversationPolling`. -/
def stopConversationPolling (s : UIState) : UIState :=
  { s with conversationPoller := none }

/-- `startMessagesPolling` (the interval delay is irrelevant to state). -/
def startMessagesPolling (s : UIState) : UIState :=
  let s := stopMessagesPolling s
  { s with messagesPoller := true }

/-- `startConversationPolling`: remembers which context the interval
polls. -/
def startConversationPolling (s : UIState) (contextId : String) : UIState :=
  let s := stopConversationPolling s
  { s with conversationPoller := some contextId }

/-- `startNewConversation`: stop both pollers and reset every
conversation-scoped ref. -/
def startNewConversation (s : UIState) : UIState :=
  let s := stopMessagesPolling s
  let s := stopConversationPolling s
  let s := setActiveContext s ""
  let s :=
    { s with
      contextInput := ""
      isContextReadonly := false
      message := ""
      result := none
      messages := []
      messagesInfo := defaultMessagesInfo
      messagesError := none
      lastMessagesKey := "" }
  resetRoundsDisplay s

/-! ## JSON.stringify model

`loadMessages` deduplicates snapshots with
`JSON.stringify(data.messages || [])`.  The following definitions model
the `JSON.stringify` builtin on an array of `CoordinatorMessage`: own
fields in declaration order, `undefined` fields omitted, strings quoted
with the standard escapes. -/

/-- One hexadecimal digit, lowercase, as produced by `JSON.stringify`
unicode escapes. -/
def hexDigit (n : Nat) : Char :=
  if n < 10 then Char.ofNat (48 + n) else Char.ofNat (87 + n)

/-- `JSON.stringify` escaping of a single character. -/
def jsonEscapeChar (c : Char) : String :=
  if c = '"' then "\\\""
  else if c = '\\' then "\\\\"
  else if c = '\n' then "\\n"
  else if c = '\t' then "\\t"
  else if c = '\r' then "\\r"
  else if c = '\x08' then "\\b"
  else if c = '\x0c' then "\\f"
  else if c.toNat < 32 then
    "\\u00" ++ String.mk [hexDigit (c.toNat / 16), hexDigit (c.toNat % 16)]
  else String.singleton c

/-- `JSON.stringify` of a string value. -/
def jsonStr (s : String) : String :=
  "\"" ++ String.join (s.data.map jsonEscapeChar) ++ "\""

/-- A stringified `"name":"value"` member for an optional field
(`undefined` members are omitted by `JSON.stringify`). -/
def jsonOptField (name : String) (v : Option String) : List String :=
  match v with
  | some s => [jsonStr name ++ ":" ++ jsonStr s]
  | none => []

/-- `JSON.stringify` of one `CoordinatorMessage` object. -/
def stringifyMessage (m : CoordinatorMessage) : String :=
  "\x7b" ++
    String.intercalate ","
      ([jsonStr "agent_name" ++ ":" ++ jsonStr m.agent_name,
        jsonStr "role" ++ ":" ++ jsonStr m.role] ++
       jsonOptField "text" m.text ++
       [jsonStr "status" ++ ":" ++ jsonStr m.status] ++
       jsonOptField "timestamp" m.timestamp ++
       jsonOptField "task_id" m.task_id) ++
  "\x7d"

/-- `JSON.stringify` of the messages array. -/
def stringifyMessages (ms : List CoordinatorMessage) : String :=
  "[" ++ String.intercalate "," (ms.map stringifyMessage) ++ "]"

/-- The context id resolved at the top of `loadMessages`:
`contextIdOverride || currentContextId.value || contextInput.value.trim()`
(an absent override argument is the empty string). -/
def loadContextId (s : UIState) (contextIdOverride : String) : String :=
  if contextIdOverride != "" then contextIdOverride
  else if s.currentContextId != "" then s.currentContextId
  else jsTrim s.contextInput

/-- The info text shown when a context has no messages yet. -/
def noMessagesInfo : String := "No messages yet. Trigger some agents to see messages here. 🚀"

/-- `loadMessages`: fetch the message log of the resolved context and
store it, short-circuiting when the JSON snapshot is unchanged.  A fetch
rejection or an `error` field in the payload records the error text and
stops the messages poller. -/
def loadMessages (s : UIState) (contextIdOverride : String)
    (outcome : Except String MessagesResponse) : UIState :=
  let contextId := loadContextId s contextIdOverride
  if contextId = "" then
    { s with messages := [], messagesInfo := defaultMessagesInfo, messagesError := none }
  else
    let s := { s with messagesLoading := true, messagesError := none }
    match outcome with
    | Except.error e =>
        let s := { s with messagesError := some e }
        let s := stopMessagesPolling s
        { s with messagesLoading := false }
    | Except.ok data =>
        if optTruthy data.error then
          let s := { s with messagesError := some (data.error.getD "") }
          let s := stopMessagesPolling s
          { s with messagesLoading := false }
        else
          let s := setActiveContext s contextId
          let snapshotKey := stringifyMessages (data.messages.getD [])
          if snapshotKey = s.lastMessagesKey then
            { s with messagesLoading := false }
          else
            let s := { s with lastMessagesKey := snapshotKey }
            if (data.messages.getD []).isEmpty then
              { s with
                messages := []
                messagesInfo := noMessagesInfo
                messagesLoading := false }
            else
              { s with
                messages := data.messages.getD []
                messagesInfo := ""
                rounds := { s.rounds with visible := true }
                messagesLoading := false }

/-- `checkConversationStatus`: poll `/conversation-status` for a context.
`not_found` returns immediately; `running`/`completed`/`failed` update the
rounds display and the result panel (terminal statuses also stop the
conversation poller), and the message log is then refreshed.  A rejected
fetch is only logged. -/
def checkConversationStatus (s : UIState) (contextId : String)
    (outcome : Except String ConversationStatus)
    (msgsOutcome : Except String MessagesResponse) : UIState :=
  match outcome with
  | Except.error _ => s
  | Except.ok data =>
      if data.status = "not_found" then s
      else
        let s := updateRoundsDisplay s (jsOrNat data.round 0) (jsOrNat data.max_rounds 3)
        let s :=
          if data.status = "running" then
            { s with result := some ({
                heading := "Conversation in Progress"
                contextId := some contextId
                statusText := some "Processing…"
                description := some ("Round " ++ toString (jsOrNat data.round 0) ++ " of "
                  ++ toString (jsOrNat data.max_rounds 3))
                details := some
                  ["Agents contacted: " ++ toString (jsNullishNat data.agents_contacted 0),
                   "Total messages: " ++ toString (jsNullishNat data.total_messages 0)]
                responses := none
                variant := ResultVariant.info
                progress := some ((jsOrNat data.round 0 : ℚ) / (max (jsOrNat data.max_rounds 1) 1 : ℚ)) } : ResultState) }
          else if data.status = "completed" then
            let s := stopConversationPolling s
            { s with result := some ({
                heading := "Conversation Completed"
                contextId := some contextId
                statusText := some "Completed"
                description := some "All rounds have finished processing."
                details := some
                  ["Total rounds: " ++ toString (jsOrNat data.round 0) ++ " / "
                     ++ toString (jsOrNat data.max_rounds 3),
                   "Agents contacted: " ++ toString (jsNullishNat data.agents_contacted 0),
                   "Total messages: " ++ toString (jsNullishNat data.total_messages 0)]
                responses := none
                variant := ResultVariant.success
                progress := some 1 } : ResultState) }
          else if data.status = "failed" then
            let s := stopConversationPolling s
            { s with result := some ({
                heading := "Conversation Failed"
                contextId := some contextId
                statusText := some "Failed"
                description := some
                  (if optTruthy data.error then "Error: " ++ data.error.getD ""
                   else "The conversation ended with an error.")
                details := none
                responses := none
                variant := ResultVariant.error
                progress := none } : ResultState) }
          else s
        loadMessages s contextId msgsOutcome

/-- The error result shown when triggering with a blank message. -/
def messageRequiredResult : ResultState :=
  { heading := "Message Required"
    contextId := none
    statusText := none
    description := some "Enter a message before sending."
    details := none
    responses := none
    variant := ResultVariant.error
    progress := none }

/-- The result panel of the `status === 'started'` branch of
`triggerAgents`. -/
def triggerStartedResult (data : TriggerResponse) : ResultState :=
  { heading := "Conversation Started"
    contextId := some data.context_id
    statusText := some "Processing in background…"
    description := some (jsOrStr data.message "Agents are working on your request.")
    details := some ["Agents contacted: " ++ toString (jsNullishNat data.agents 0)]
    responses := none
    variant := ResultVariant.info
    progress := some 0 }

/-- The result panel of the synchronous (non-`started`) branch of
`triggerAgents`. -/
def triggerSyncResult (data : TriggerResponse) : ResultState :=
  { heading := "Trigger Result"
    contextId := some data.context_id
    statusText := some ("Status: " ++ data.status)
    description := some (jsOrStr data.message "Conversation result available.")
    details := some
      ["Agents contacted: " ++ toString (jsNullishNat data.agents 0),
       "Conversation rounds completed: " ++ toString (jsNullishNat data.rounds_completed 0)
         ++ " / " ++ toString (jsNullishNat data.max_rounds 3)]
    responses := data.responses
    variant := ResultVariant.info
    progress := none }

/-- `result.value.details = result.value.details?.filter(Boolean)`:
drop the falsy (empty) detail strings. -/
def filterResultDetails (r : Option ResultState) : Option ResultState :=
  r.map (fun v => { v with details := v.details.map (List.filter (fun d => d != "")) })

/-- `triggerAgents`: with a blank message, set the `Message Required`
error and stop (no request).  Otherwise POST `/trigger`; on success adopt
the returned context, clear the draft, render either the `started` panel
(and start conversation polling) or the synchronous result panel (and
update the rounds display), refresh messages and start the messages
poller; on a rejected fetch stop both pollers and show the error.  The
second component records whether the trigger request was issued. -/
def triggerAgents (s : UIState) (outcome : Except String TriggerResponse)
    (msgsOutcome : Except String MessagesResponse) : UIState × Bool :=
  if !messageHasText s then
    ({ s with result := some messageRequiredResult }, false)
  else
    let s := { s with isTriggering := true }
    match outcome with
    | Except.error e =>
        let s := stopMessagesPolling s
        let s := stopConversationPolling s
        let s :=
          { s with result := some ({
              heading := "Error triggering agents"
              contextId := none
              statusText := none
              description := some e
              details := none
              responses := none
              variant := ResultVariant.error
              progress := none } : ResultState) }
        ({ s with isTriggering := false }, true)
    | Except.ok data =>
        let s := setActiveContext s data.context_id
        let s := { s with message := "" }
        let s :=
          if data.status = "started" then
            let s := { s with result := some (triggerStartedResult data) }
            startConversationPolling s data.context_id
          else
            let s := { s with result := some (triggerSyncResult data) }
            updateRoundsDisplay s (jsOrNat data.rounds_completed 0) (jsOrNat data.max_rounds 3)
        let s := { s with result := filterResultDetails s.result }
        let s := loadMessages s data.context_id msgsOutcome
        let s := startMessagesPolling s
        ({ s with isTriggering := false }, true)

/-- The message list actually rendered by the template: the error alert
and the info paragraph take priority over the `v-for` over `messages`. -/
def renderedMessages (s : UIState) : List CoordinatorMessage :=
  if optTruthy s.messagesError then []
  else if s.messagesInfo != "" then []
  else s.messages

/-- `true` when the result panel is not the running
`Conversation in Progress` card. -/
def notInProgress (s : UIState) : Bool :=
  match s.result with
  | some r => r.heading != "Conversation in Progress"
  | none => true

/-- The UI events that can occur without a new trigger: a tick of the
messages poller, a tick of the conversation poller, a manual refresh, and
the `New Conversation` button. -/
inductive UIEvent where
  | messagesTick (outcome : Except String MessagesResponse)
  | conversationTick (statusOutcome : Except String ConversationStatus)
      (msgsOutcome : Except String MessagesResponse)
  | manualRefresh (outcome : Except String MessagesResponse)
  | newConversation

/-- One non-trigger step of the component: an interval callback only
fires while its interval is installed. -/
def stepNoTrigger (s : UIState) : UIEvent → UIState
  | UIEvent.messagesTick o => if s.messagesPoller then loadMessages s "" o else s
  | UIEvent.conversationTick so mo =>
      match s.conversationPoller with
      | some ctx => checkConversationStatus s ctx so mo
      | none => s
  | UIEvent.manualRefresh o => loadMessages s "" o
  | UIEvent.newConversation => startNewConversation s

/-- A concrete component state used to instantiate the theorems below. -/
def sampleState : UIState :=
  { contextInput := ""
    message := "hello agents"
    isContextReadonly := false
    currentContextId := ""
    result := none
    isTriggering := false
    messages := []
    messagesLoading := false
    messagesInfo := defaultMessagesInfo
    messagesError := none
    lastMessagesKey := ""
    rounds := ⟨0, 3, false⟩
    messagesPoller := false
    conversationPoller := none }

/-- A concrete message used to instantiate the theorems below. -/
def sampleMessage : CoordinatorMessage :=
  { agent_name := "user"
    role := "user"
    text := some "hello agents"
    status := "completed"
    timestamp := none
    task_id := none }

end MCPeeps

/-! ## Helper lemmas -/

namespace MCPeeps

theorem string_length_zero_iff (s : String) : s.length = 0 ↔ s = "" := by
  cases s with
  | mk data =>
    simp only [String.length]
    constructor
    · intro h
      have : data = [] := List.length_eq_zero.mp (by simpa using h)
      subst this; rfl
    · intro h
      have : data = [] := congrArg String.data h
      simp [this]

theorem string_append_ne_empty (a b : String) (h : a ≠ "") : a ++ b ≠ "" := by
  intro hc
  apply h
  have hlen := congrArg String.length hc
  rw [String.length_append] at hlen
  exact (string_length_zero_iff a).mp (by
    have : a.length + b.length = 0 := by simpa using hlen
    omega)

theorem mem_head?_dropWhile_not (p : α → Bool) :
    ∀ (l : List α) (a : α), (l.dropWhile p).head? = some a → p a = false := by
  intro l
  induction l with
  | nil => intro a h; simp [List.dropWhile] at h
  | cons b t ih =>
      intro a h
      by_cases hb : p b = true
      · rw [List.dropWhile_cons_of_pos hb] at h
        exact ih a h
      · rw [List.dropWhile_cons_of_neg hb] at h
        simp at h
        rw [← h]
        simpa using hb

theorem dropWhile_eq_self_of_head (p : α → Bool) (l : List α)
    (h : ∀ a, l.head? = some a → p a = false) : l.dropWhile p = l := by
  cases l with
  | nil => rfl
  | cons b t =>
      have hb : p b = false := h b rfl
      exact List.dropWhile_cons_of_neg (by simp [hb])

theorem getLast?_dropWhile_of_ne_nil (p : α → Bool) (l : List α)
    (h : l.dropWhile p ≠ []) : (l.dropWhile p).getLast? = l.getLast? := by
  induction l with
  | nil => simp [List.dropWhile] at h
  | cons b t ih =>
      by_cases hb : p b = true
      · rw [List.dropWhile_cons_of_pos hb] at h ⊢
        rw [ih h]
        have ht : t ≠ [] := by
          intro hnil
          subst hnil
          simp [List.dropWhile] at h
        cases t with
        | nil => exact absurd rfl ht
        | cons c u => simp [List.getLast?_cons_cons]
      · rw [List.dropWhile_cons_of_neg hb]

theorem listTrim_idem (p : α → Bool) (l : List α) :
    listTrim p (listTrim p l) = listTrim p l := by
  unfold listTrim
  by_cases hnil : (l.dropWhile p).reverse.dropWhile p = []
  · rw [hnil]
    simp [List.dropWhile]
  · have hlast_u : ∀ a, ((l.dropWhile p).reverse.dropWhile p).getLast? = some a → p a = false := by
      intro a ha
      rw [getLast?_dropWhile_of_ne_nil p _ hnil, List.getLast?_reverse] at ha
      exact mem_head?_dropWhile_not p l a ha
    have step1 : ((l.dropWhile p).reverse.dropWhile p).reverse.dropWhile p
        = ((l.dropWhile p).reverse.dropWhile p).reverse := by
      apply dropWhile_eq_self_of_head
      intro a ha
      rw [List.head?_reverse] at ha
      exact hlast_u a ha
    rw [step1, List.reverse_reverse]
    have step2 : ((l.dropWhile p).reverse.dropWhile p).dropWhile p
        = (l.dropWhile p).reverse.dropWhile p := by
      apply dropWhile_eq_self_of_head
      intro a ha
      exact mem_head?_dropWhile_not p (l.dropWhile p).reverse a ha
    rw [step2]

theorem jsTrim_idem (s : String) : jsTrim (jsTrim s) = jsTrim s := by
  show String.mk (listTrim jsWhitespaceChar (String.mk (listTrim jsWhitespaceChar s.data)).data)
      = String.mk (listTrim jsWhitespaceChar s.data)
  exact congrArg String.mk (listTrim_idem jsWhitespaceChar s.data)

theorem loadMessages_result (s : UIState) (ov : String)
    (o : Except String MessagesResponse) :
    (loadMessages s ov o).result = s.result := by
  cases o with
  | error e =>
      unfold loadMessages
      dsimp only
      split
      · rfl
      · rfl
  | ok data =>
      unfold loadMessages
      dsimp only
      split
      · rfl
      · split
        · rfl
        · split
          · rfl
          · split
            · rfl
            · rfl

theorem loadMessages_conversationPoller (s : UIState) (ov : String)
    (o : Except String MessagesResponse) :
    (loadMessages s ov o).conversationPoller = s.conversationPoller := by
  cases o with
  | error e =>
      unfold loadMessages
      dsimp only
      split
      · rfl
      · rfl
  | ok data =>
      unfold loadMessages
      dsimp only
      split
      · rfl
      · split
        · rfl
        · split
          · rfl
          · split
            · rfl
            · rfl

theorem loadMessages_rounds_completed_max (s : UIState) (ov : String)
    (o : Except String MessagesResponse) :
    (loadMessages s ov o).rounds.completed = s.rounds.completed ∧
    (loadMessages s ov o).rounds.max = s.rounds.max := by
  cases o with
  | error e =>
      unfold loadMessages
      dsimp only
      split
      · exact ⟨rfl, rfl⟩
      · exact ⟨rfl, rfl⟩
  | ok data =>
      unfold loadMessages
      dsimp only
      split
      · exact ⟨rfl, rfl⟩
      · split
        · exact ⟨rfl, rfl⟩
        · split
          · exact ⟨rfl, rfl⟩
          · split
            · exact ⟨rfl, rfl⟩
            · exact ⟨rfl, rfl⟩

theorem rounds_update_visible_self (r : RoundsState) (h : r.visible = true) :
    ({ r with visible := true } : RoundsState) = r := by
  cases r
  simp_all

theorem loadMessages_rounds_of_visible (s : UIState) (ov : String)
    (o : Except String MessagesResponse) (h : s.rounds.visible = true) :
    (loadMessages s ov o).rounds = s.rounds := by
  cases o with
  | error e =>
      unfold loadMessages
      dsimp only
      split
      · rfl
      · rfl
  | ok data =>
      unfold loadMessages
      dsimp only
      split
      · rfl
      · split
        · rfl
        · split
          · rfl
          · split
            · rfl
            · exact rounds_update_visible_self s.rounds h

theorem loadMessages_of_no_context (s : UIState) (ov : String)
    (o : Except String MessagesResponse) (h : loadContextId s ov = "") :
    loadMessages s ov o =
      { s with messages := [], messagesInfo := defaultMessagesInfo, messagesError := none } := by
  unfold loadMessages
  dsimp only
  rw [if_pos h]

theorem loadMessages_currentContextId (s : UIState) (ov : String)
    (o : Except String MessagesResponse)
    (h1 : s.currentContextId = jsTrim ov) (h2 : s.contextInput = jsTrim ov) :
    (loadMessages s ov o).currentContextId = jsTrim ov := by
  by_cases hov : ov = ""
  · subst hov
    have htrim : jsTrim "" = "" := rfl
    rw [htrim] at h1 h2 ⊢
    have hctx : loadContextId s "" = "" := by
      simp [loadContextId, h1, h2, htrim]
    rw [loadMessages_of_no_context s "" o hctx]
    exact h1
  · have hctx : loadContextId s ov = ov := by
      simp [loadContextId, hov]
    cases o with
    | error e =>
        unfold loadMessages
        dsimp only
        rw [hctx, if_neg hov]
        exact h1
    | ok data =>
        unfold loadMessages
        dsimp only
        rw [hctx, if_neg hov]
        split
        · exact h1
        · unfold setActiveContext
          dsimp only
          split
          · rfl
          · split
            · rfl
            · rfl

theorem notInProgress_eq_of_result_eq (s t : UIState) (h : s.result = t.result) :
    notInProgress s = notInProgress t := by
  unfold notInProgress
  rw [h]

theorem stepNoTrigger_preserves (s : UIState) (e : UIEvent)
    (h1 : s.conversationPoller = none) (h2 : notInProgress s = true) :
    (stepNoTrigger s e).conversationPoller = none ∧
    notInProgress (stepNoTrigger s e) = true := by
  cases e with
  | messagesTick o =>
      dsimp only [stepNoTrigger]
      by_cases hp : s.messagesPoller = true
      · rw [if_pos hp]
        refine ⟨?_, ?_⟩
        · rw [loadMessages_conversationPoller]; exact h1
        · rw [notInProgress_eq_of_result_eq (loadMessages s "" o) s (loadMessages_result s "" o)]
          exact h2
      · rw [if_neg hp]
        exact ⟨h1, h2⟩
  | conversationTick so mo =>
      dsimp only [stepNoTrigger]
      rw [h1]
      exact ⟨h1, h2⟩
  | manualRefresh o =>
      dsimp only [stepNoTrigger]
      refine ⟨?_, ?_⟩
      · rw [loadMessages_conversationPoller]; exact h1
      · rw [notInProgress_eq_of_result_eq (loadMessages s "" o) s (loadMessages_result s "" o)]
        exact h2
  | newConversation =>
      exact ⟨rfl, rfl⟩

theorem foldl_stepNoTrigger_preserves (evts : List UIEvent) :
    ∀ s : UIState, s.conversationPoller = none → notInProgress s = true →
      (evts.foldl stepNoTrigger s).conversationPoller = none ∧
      notInProgress (evts.foldl stepNoTrigger s) = true := by
  induction evts with
  | nil => intro s h1 h2; exact ⟨h1, h2⟩
  | cons e rest ih =>
      intro s h1 h2
      have hstep := stepNoTrigger_preserves s e h1 h2
      exact ih (stepNoTrigger s e) hstep.1 hstep.2

/-! ## Claim theorems -/

/-- C7: after `startNewConversation` runs, every piece of
conversation-scoped UI state is reset: active context and context input
empty and editable, draft message empty, result panel cleared, message
list and snapshot key empty, info text restored, error cleared, rounds
display back to `0 / 3` and hidden, and both pollers stopped. -/
theorem startNewConversation_resets (s : UIState) :
    (startNewConversation s).currentContextId = "" ∧
    (startNewConversation s).contextInput = "" ∧
    (startNewConversation s).isContextReadonly = false ∧
    (startNewConversation s).message = "" ∧
    (startNewConversation s).result = none ∧
    (startNewConversation s).messages = [] ∧
    (startNewConversation s).lastMessagesKey = "" ∧
    (startNewConversation s).messagesInfo = defaultMessagesInfo ∧
    (startNewConversation s).messagesError = none ∧
    (startNewConversation s).rounds = ⟨0, 3, false⟩ ∧
    (startNewConversation s).messagesPoller = false ∧
    (startNewConversation s).conversationPoller = none :=
  ⟨rfl, rfl, rfl, rfl, rfl, rfl, rfl, rfl, rfl, rfl, rfl, rfl⟩

/-- C9: `buildUrl` returns the path unchanged when it begins with
`http://` or `https://` or when the stripped API base is empty; otherwise
it prepends the base (whose trailing slashes are all stripped, so its last
character is never `/`), inserting exactly one `/` when the path does not
already start with one; in every case the result ends with the path. -/
theorem buildUrl_spec (rawBase path : String) :
    ((jsStartsWith path "http://" || jsStartsWith path "https://") = true ∨
        stripTrailingSlashes rawBase = "" →
      buildUrl (stripTrailingSlashes rawBase) path = path) ∧
    ((jsStartsWith path "http://" || jsStartsWith path "https://") = false →
      stripTrailingSlashes rawBase ≠ "" →
      buildUrl (stripTrailingSlashes rawBase) path =
        stripTrailingSlashes rawBase ++
          (if jsStartsWith path "/" then path else "/" ++ path)) ∧
    (∀ c, (stripTrailingSlashes rawBase).data.getLast? = some c → c ≠ '/') ∧
    (∃ pre, buildUrl (stripTrailingSlashes rawBase) path = pre ++ path) := by
  refine ⟨?_, ?_, ?_, ?_⟩
  · intro h
    rcases h with hb | he
    · simp [buildUrl, hb]
    · simp [buildUrl, he]
  · intro hb hne
    simp [buildUrl, hb, hne]
  · intro c hc
    have hc2 : ((rawBase.data.reverse.dropWhile (fun c => c = '/')).reverse).getLast? = some c := hc
    rw [List.getLast?_reverse] at hc2
    have := mem_head?_dropWhile_not (fun c => decide (c = '/')) rawBase.data.reverse c hc2
    intro heq
    rw [heq] at this
    simp at this
  · by_cases hcond : (jsStartsWith path "http://" || jsStartsWith path "https://"
        || decide (stripTrailingSlashes rawBase = "")) = true
    · refine ⟨"", ?_⟩
      rw [String.empty_append]
      simp only [buildUrl]
      rw [if_pos hcond]
    · by_cases hsl : jsStartsWith path "/" = true
      · refine ⟨stripTrailingSlashes rawBase, ?_⟩
        simp only [buildUrl]
        rw [if_neg hcond, if_pos hsl]
      · refine ⟨stripTrailingSlashes rawBase ++ "/", ?_⟩
        simp only [buildUrl]
        rw [if_neg hcond, if_neg hsl, String.append_assoc]

/-- C9 witness: a relative path is appended to the stripped base with a
single separating slash. -/
theorem buildUrl_spec_witness :
    buildUrl (stripTrailingSlashes "http://host///") "trigger" =
      stripTrailingSlashes "http://host///" ++
        (if jsStartsWith "trigger" "/" then "trigger" else "/" ++ "trigger") :=
  (buildUrl_spec "http://host///" "trigger").2.1 (by decide) (by decide)

/-- C2: a conversation-status response with status `not_found` leaves the
whole state untouched: `checkConversationStatus` returns before updating
the result panel, the rounds display or the message list. -/
theorem checkConversationStatus_not_found (s : UIState) (ctx : String)
    (d : ConversationStatus) (m : Except String MessagesResponse)
    (h : d.status = "not_found") :
    checkConversationStatus s ctx (Except.ok d) m = s := by
  unfold checkConversationStatus
  dsimp only
  rw [if_pos h]

/-- C2 witness: a `not_found` status for a never-triggered context is a
no-op on the sample state. -/
theorem checkConversationStatus_not_found_witness :
    checkConversationStatus sampleState "ctx-1"
      (Except.ok ⟨"not_found", none, none, none, none, none⟩)
      (Except.ok ⟨none, none⟩) = sampleState :=
  checkConversationStatus_not_found sampleState "ctx-1"
    ⟨"not_found", none, none, none, none, none⟩ (Except.ok ⟨none, none⟩) rfl

theorem messageHasText_iff (s : UIState) :
    messageHasText s = true ↔ jsTrim s.message ≠ "" := by
  unfold messageHasText
  rw [decide_eq_true_iff]
  constructor
  · intro h hc
    rw [hc] at h
    simp at h
  · intro h
    exact Nat.pos_of_ne_zero (fun h0 => h ((string_length_zero_iff _).mp h0))

/-- C10: triggering with a whitespace-only (or empty) draft message sets
only the `Message Required` error result and issues no request; the
trigger request is issued exactly when the trimmed message is non-empty. -/
theorem triggerAgents_blank_message (s : UIState)
    (o : Except String TriggerResponse) (m : Except String MessagesResponse) :
    (jsTrim s.message = "" →
      triggerAgents s o m = ({ s with result := some messageRequiredResult }, false)) ∧
    ((triggerAgents s o m).2 = true ↔ jsTrim s.message ≠ "") := by
  constructor
  · intro h
    have hf : messageHasText s = false := by
      cases hmt : messageHasText s
      · rfl
      · exact absurd ((messageHasText_iff s).mp hmt) (by simp [h])
    unfold triggerAgents
    rw [hf]
    rfl
  · cases hmt : messageHasText s
    · have hsnd : (triggerAgents s o m).2 = false := by
        unfold triggerAgents
        rw [hmt]
        rfl
      rw [hsnd]
      have : ¬ jsTrim s.message ≠ "" := by
        intro hne
        rw [(messageHasText_iff s).mpr hne] at hmt
        simp at hmt
      simp [this]
    · have hsnd : (triggerAgents s o m).2 = true := by
        unfold triggerAgents
        rw [hmt]
        cases o with
        | error e => rfl
        | ok data => rfl
      rw [hsnd]
      simp [(messageHasText_iff s).mp hmt]

/-- C10 witness: a whitespace-only draft produces the `Message Required`
error and no request on a concrete state. -/
theorem triggerAgents_blank_message_witness :
    triggerAgents { sampleState with message := "   " }
        (Except.ok ⟨"started", none, "ctx-1", some 4, none, none, none⟩)
        (Except.ok ⟨none, none⟩) =
      ({ { sampleState with message := "   " } with result := some messageRequiredResult },
        false) :=
  (triggerAgents_blank_message { sampleState with message := "   " }
      (Except.ok ⟨"started", none, "ctx-1", some 4, none, none, none⟩)
      (Except.ok ⟨none, none⟩)).1 (by decide)

theorem messageCardClass_role_indep (st : String) (hst : st ∈ highlightStatuses)
    (role : String) : messageCardClass st role = messageCardClass st "" := by
  fin_cases hst <;> rfl

theorem messageCardClass_nonhighlight (st : String) (h : st ∉ highlightStatuses)
    (role : String) :
    messageCardClass st role = String.intercalate " "
      [baseCardClass,
       if role = "user" then "ring-1 ring-sky-200/60" else "ring-1 ring-indigo-200/60"] := by
  have h' := h
  simp only [highlightStatuses, List.mem_cons, List.not_mem_nil, or_false, not_or] at h'
  obtain ⟨h1, h2, h3, h4, h5⟩ := h'
  simp [messageCardClass, h, h1, h2, h3, h4, h5]

/-- C6: `statusIcon` maps each of the five message statuses to a distinct
indicator (with `submitted` rendered as the spinner) and every other
status to the fallback `❓`; `messageCardClass` distinguishes exactly
those five statuses (any two other statuses render identically). -/
theorem statusIcon_total_distinct :
    (statusIcon "completed" = "✅" ∧ statusIcon "failed" = "❌" ∧
     statusIcon "working" = "⏳" ∧ statusIcon "submitted" = "spinner" ∧
     statusIcon "pending" = "⏸️") ∧
    List.Pairwise (fun a b => a ≠ b)
      [statusIcon "completed", statusIcon "failed", statusIcon "working",
       statusIcon "submitted", statusIcon "pending"] ∧
    (∀ st, st ∉ highlightStatuses → statusIcon st = "❓") ∧
    (∀ s1, s1 ∈ highlightStatuses → ∀ s2, s2 ∈ highlightStatuses → s1 ≠ s2 →
      ∀ role, messageCardClass s1 role ≠ messageCardClass s2 role) ∧
    (∀ s1 s2 : String, s1 ∉ highlightStatuses → s2 ∉ highlightStatuses → ∀ role,
      messageCardClass s1 role = messageCardClass s2 role) := by
  refine ⟨⟨rfl, rfl, rfl, rfl, rfl⟩, by decide, ?_, ?_, ?_⟩
  · intro st h
    simp only [highlightStatuses, List.mem_cons, List.not_mem_nil, or_false, not_or] at h
    obtain ⟨h1, h2, h3, h4, h5⟩ := h
    simp [statusIcon, h1, h2, h3, h4, h5]
  · intro s1 hs1 s2 hs2 hne role
    rw [messageCardClass_role_indep s1 hs1 role, messageCardClass_role_indep s2 hs2 role]
    fin_cases hs1 <;> fin_cases hs2 <;> first
      | exact absurd rfl hne
      | decide
  · intro s1 s2 h1 h2 role
    rw [messageCardClass_nonhighlight s1 h1 role, messageCardClass_nonhighlight s2 h2 role]

/-- C6 witness: the fallback icon, a pair of distinguished statuses, and a
pair of unknown statuses rendering identically, at concrete inputs. -/
theorem statusIcon_total_distinct_witness :
    statusIcon "mystery" = "❓" ∧
    messageCardClass "completed" "agent" ≠ messageCardClass "failed" "agent" ∧
    messageCardClass "mystery" "user" = messageCardClass "unknown" "user" := by
  refine ⟨?_, ?_, ?_⟩
  · exact statusIcon_total_distinct.2.2.1 "mystery" (by decide)
  · exact statusIcon_total_distinct.2.2.2.1 "completed" (by decide) "failed" (by decide)
      (by decide) "agent"
  · exact statusIcon_total_distinct.2.2.2.2 "mystery" "unknown" (by decide) (by decide) "user"

/-- C4: an `error` field in the messages payload, or a rejected fetch of
the messages endpoint, records the error text, stops the messages poller,
and leaves the displayed message list, info text and snapshot key
unchanged. -/
theorem loadMessages_error_stops_polling (s : UIState) (ov err : String)
    (o : Except String MessagesResponse)
    (hctx : loadContextId s ov ≠ "")
    (h : o = Except.error err ∨
      ∃ d, o = Except.ok d ∧ d.error = some err ∧ err ≠ "") :
    (loadMessages s ov o).messagesError = some err ∧
    (loadMessages s ov o).messagesPoller = false ∧
    (loadMessages s ov o).messages = s.messages ∧
    (loadMessages s ov o).messagesInfo = s.messagesInfo ∧
    (loadMessages s ov o).lastMessagesKey = s.lastMessagesKey := by
  rcases h with h | ⟨d, hd, herr, hne⟩
  · subst h
    unfold loadMessages
    dsimp only
    rw [if_neg hctx]
    exact ⟨rfl, rfl, rfl, rfl, rfl⟩
  · subst hd
    unfold loadMessages
    dsimp only
    rw [if_neg hctx]
    have htr : optTruthy d.error = true := by
      rw [herr]
      simp [optTruthy, hne]
    rw [if_pos htr]
    refine ⟨?_, rfl, rfl, rfl, rfl⟩
    rw [herr]
    rfl

/-- C4 witness: an `error` payload for an active context records the
error, stops the poller, and keeps the list on a concrete state. -/
theorem loadMessages_error_stops_polling_witness :
    (loadMessages { sampleState with currentContextId := "ctx-1" } ""
        (Except.ok ⟨some "boom", none⟩)).messagesError = some "boom" ∧
    (loadMessages { sampleState with currentContextId := "ctx-1" } ""
        (Except.ok ⟨some "boom", none⟩)).messagesPoller = false ∧
    (loadMessages { sampleState with currentContextId := "ctx-1" } ""
        (Except.ok ⟨some "boom", none⟩)).messages
      = { sampleState with currentContextId := "ctx-1" }.messages ∧
    (loadMessages { sampleState with currentContextId := "ctx-1" } ""
        (Except.ok ⟨some "boom", none⟩)).messagesInfo
      = { sampleState with currentContextId := "ctx-1" }.messagesInfo ∧
    (loadMessages { sampleState with currentContextId := "ctx-1" } ""
        (Except.ok ⟨some "boom", none⟩)).lastMessagesKey
      = { sampleState with currentContextId := "ctx-1" }.lastMessagesKey :=
  loadMessages_error_stops_polling { sampleState with currentContextId := "ctx-1" }
    "" "boom" (Except.ok ⟨some "boom", none⟩) (by decide)
    (Or.inr ⟨⟨some "boom", none⟩, rfl, rfl, by decide⟩)

/-- C3: a non-empty messages payload is stored exactly as returned — no
re-sorting, filtering or deduplication — and the template renders the
stored sequence in that order. -/
theorem loadMessages_stores_exactly (s : UIState) (ov : String)
    (d : MessagesResponse) (ms : List CoordinatorMessage)
    (hctx : loadContextId s ov ≠ "")
    (herr : optTruthy d.error = false)
    (hms : d.messages = some ms)
    (hne : ms ≠ [])
    (hnew : stringifyMessages ms ≠ s.lastMessagesKey) :
    (loadMessages s ov (Except.ok d)).messages = ms ∧
    renderedMessages (loadMessages s ov (Except.ok d)) = ms := by
  have hie : ms.isEmpty = false := by
    cases ms with
    | nil => exact absurd rfl hne
    | cons a t => rfl
  unfold loadMessages
  dsimp only
  rw [if_neg hctx, if_neg (by rw [herr]; simp), hms]
  dsimp only [Option.getD]
  rw [if_neg (by dsimp only [setActiveContext]; exact hnew), if_neg (by simp [hie])]
  exact ⟨rfl, rfl⟩

/-- C3 witness: a concrete two-message payload (out of timestamp order)
is stored and rendered verbatim. -/
theorem loadMessages_stores_exactly_witness :
    (loadMessages { sampleState with currentContextId := "ctx-1" } ""
        (Except.ok ⟨none, some [sampleMessage,
          ⟨"swe-agent", "agent", some "done", "completed", some "2024-01-01T00:00:00Z", some "t1"⟩]⟩)).messages
      = [sampleMessage,
          ⟨"swe-agent", "agent", some "done", "completed", some "2024-01-01T00:00:00Z", some "t1"⟩] ∧
    renderedMessages (loadMessages { sampleState with currentContextId := "ctx-1" } ""
        (Except.ok ⟨none, some [sampleMessage,
          ⟨"swe-agent", "agent", some "done", "completed", some "2024-01-01T00:00:00Z", some "t1"⟩]⟩))
      = [sampleMessage,
          ⟨"swe-agent", "agent", some "done", "completed", some "2024-01-01T00:00:00Z", some "t1"⟩] :=
  loadMessages_stores_exactly { sampleState with currentContextId := "ctx-1" } ""
    ⟨none, some [sampleMessage,
      ⟨"swe-agent", "agent", some "done", "completed", some "2024-01-01T00:00:00Z", some "t1"⟩]⟩
    [sampleMessage,
      ⟨"swe-agent", "agent", some "done", "completed", some "2024-01-01T00:00:00Z", some "t1"⟩]
    (by decide) (by decide) rfl (by decide) (by decide)

theorem loadMessages_error_field (s : UIState) (ov : String) (d : MessagesResponse)
    (hC : loadContextId s ov ≠ "") (hot : optTruthy d.error = true) :
    loadMessages s ov (Except.ok d) =
      { s with messagesLoading := false,
               messagesError := some (d.error.getD ""),
               messagesPoller := false } := by
  unfold loadMessages
  dsimp only
  rw [if_neg hC, if_pos hot]
  rfl

theorem loadMessages_success_lastKey (s : UIState) (ov : String) (d : MessagesResponse)
    (hC : loadContextId s ov ≠ "") (hot : optTruthy d.error = false) :
    (loadMessages s ov (Except.ok d)).lastMessagesKey
      = stringifyMessages (d.messages.getD []) := by
  unfold loadMessages
  dsimp only
  rw [if_neg hC, if_neg (by rw [hot]; simp)]
  split
  · next heq => exact heq.symm
  · split
    · rfl
    · rfl

theorem loadMessages_success_early (s : UIState) (ov : String) (d : MessagesResponse)
    (hC : loadContextId s ov ≠ "") (hot : optTruthy d.error = false)
    (hkey : stringifyMessages (d.messages.getD []) = s.lastMessagesKey) :
    loadMessages s ov (Except.ok d) =
      { setActiveContext { s with messagesLoading := true, messagesError := none }
          (loadContextId s ov) with messagesLoading := false } := by
  unfold loadMessages
  dsimp only
  rw [if_neg hC, if_neg (by rw [hot]; simp), if_pos (by dsimp only [setActiveContext]; exact hkey)]

theorem jsTrim_loadContextId (s : UIState) (ov : String)
    (hcur : jsTrim s.currentContextId = s.currentContextId)
    (hov : ov = "") :
    jsTrim (loadContextId s ov) = loadContextId s ov := by
  subst hov
  unfold loadContextId
  simp only [bne_self_eq_false, Bool.false_eq_true, if_false]
  by_cases h : s.currentContextId = ""
  · simp [h, jsTrim_idem]
  · simp [bne_iff_ne, h, hcur]

theorem loadContextId_after_success (s : UIState) (ov : String) (d : MessagesResponse)
    (hC : loadContextId s ov ≠ "") (hot : optTruthy d.error = false)
    (hcur : jsTrim s.currentContextId = s.currentContextId) :
    loadContextId (loadMessages s ov (Except.ok d)) ov = loadContextId s ov := by
  have hcc : (loadMessages s ov (Except.ok d)).currentContextId
      = jsTrim (loadContextId s ov) := by
    unfold loadMessages
    dsimp only
    rw [if_neg hC, if_neg (by rw [hot]; simp)]
    split
    · rfl
    · split
      · rfl
      · rfl
  by_cases hov : ov = ""
  · have htr := jsTrim_loadContextId s ov hcur hov
    subst hov
    have hne2 : (loadMessages s "" (Except.ok d)).currentContextId ≠ "" := by
      rw [hcc, htr]; exact hC
    unfold loadContextId
    simp only [bne_self_eq_false, Bool.false_eq_true, if_false]
    rw [if_pos (by simp [bne_iff_ne, hne2])]
    rw [hcc, htr]
    unfold loadContextId at hC ⊢
    simp only [bne_self_eq_false, Bool.false_eq_true, if_false] at hC ⊢
  · unfold loadContextId
    rw [if_pos (by simp [bne_iff_ne, hov]), if_pos (by simp [bne_iff_ne, hov])]

/-- C8: `loadMessages` is idempotent on unchanged data: a second call with
an identical messages payload leaves the displayed message list, the info
text, and the stored snapshot key exactly as after the first call (for any
state whose active context is stored trimmed, which `setActiveContext`
guarantees). -/
theorem loadMessages_idempotent_on_unchanged (s : UIState) (ov : String)
    (d : MessagesResponse)
    (hcur : jsTrim s.currentContextId = s.currentContextId) :
    (loadMessages (loadMessages s ov (Except.ok d)) ov (Except.ok d)).messages
      = (loadMessages s ov (Except.ok d)).messages ∧
    (loadMessages (loadMessages s ov (Except.ok d)) ov (Except.ok d)).messagesInfo
      = (loadMessages s ov (Except.ok d)).messagesInfo ∧
    (loadMessages (loadMessages s ov (Except.ok d)) ov (Except.ok d)).lastMessagesKey
      = (loadMessages s ov (Except.ok d)).lastMessagesKey := by
  by_cases hC : loadContextId s ov = ""
  · rw [loadMessages_of_no_context s ov (Except.ok d) hC]
    have hC2 : loadContextId
        { s with messages := [], messagesInfo := defaultMessagesInfo, messagesError := none }
        ov = "" := hC
    rw [loadMessages_of_no_context _ ov (Except.ok d) hC2]
    exact ⟨rfl, rfl, rfl⟩
  · cases hot : optTruthy d.error with
    | true =>
        rw [loadMessages_error_field s ov d hC hot]
        have hC2 : loadContextId
            { s with messagesLoading := false,
                     messagesError := some (d.error.getD ""),
                     messagesPoller := false } ov ≠ "" := hC
        rw [loadMessages_error_field _ ov d hC2 hot]
        exact ⟨rfl, rfl, rfl⟩
    | false =>
        have hkey1 := loadMessages_success_lastKey s ov d hC hot
        have hC2eq := loadContextId_after_success s ov d hC hot hcur
        have hC2 : loadContextId (loadMessages s ov (Except.ok d)) ov ≠ "" := by
          rw [hC2eq]; exact hC
        have h2 := loadMessages_success_early (loadMessages s ov (Except.ok d)) ov d hC2 hot
          (by rw [hkey1])
        rw [h2]
        exact ⟨rfl, rfl, rfl⟩

/-- C8 witness: re-fetching the same one-message payload leaves list, info
text and snapshot key unchanged on a concrete state. -/
theorem loadMessages_idempotent_on_unchanged_witness :
    (loadMessages (loadMessages sampleState "ctx-1" (Except.ok ⟨none, some [sampleMessage]⟩))
        "ctx-1" (Except.ok ⟨none, some [sampleMessage]⟩)).messages
      = (loadMessages sampleState "ctx-1" (Except.ok ⟨none, some [sampleMessage]⟩)).messages ∧
    (loadMessages (loadMessages sampleState "ctx-1" (Except.ok ⟨none, some [sampleMessage]⟩))
        "ctx-1" (Except.ok ⟨none, some [sampleMessage]⟩)).messagesInfo
      = (loadMessages sampleState "ctx-1" (Except.ok ⟨none, some [sampleMessage]⟩)).messagesInfo ∧
    (loadMessages (loadMessages sampleState "ctx-1" (Except.ok ⟨none, some [sampleMessage]⟩))
        "ctx-1" (Except.ok ⟨none, some [sampleMessage]⟩)).lastMessagesKey
      = (loadMessages sampleState "ctx-1" (Except.ok ⟨none, some [sampleMessage]⟩)).lastMessagesKey :=
  loadMessages_idempotent_on_unchanged sampleState "ctx-1" ⟨none, some [sampleMessage]⟩ rfl

/-- C5: observing a `completed` or `failed` conversation status stops the
conversation poller and leaves a terminal (non-running) result panel, and
under every further sequence of non-trigger events the poller stays
stopped and the panel never becomes `Conversation in Progress` again. -/
theorem terminal_status_stops_polling (s : UIState) (ctx : String)
    (d : ConversationStatus) (m : Except String MessagesResponse)
    (h : d.status = "completed" ∨ d.status = "failed") :
    (checkConversationStatus s ctx (Except.ok d) m).conversationPoller = none ∧
    notInProgress (checkConversationStatus s ctx (Except.ok d) m) = true ∧
    ∀ evts : List UIEvent,
      (evts.foldl stepNoTrigger
        (checkConversationStatus s ctx (Except.ok d) m)).conversationPoller = none ∧
      notInProgress (evts.foldl stepNoTrigger
        (checkConversationStatus s ctx (Except.ok d) m)) = true := by
  have base : (checkConversationStatus s ctx (Except.ok d) m).conversationPoller = none ∧
      notInProgress (checkConversationStatus s ctx (Except.ok d) m) = true := by
    rcases h with h | h
    · unfold checkConversationStatus
      dsimp only
      rw [h]
      rw [if_neg (by decide), if_neg (by decide), if_pos rfl]
      constructor
      · rw [loadMessages_conversationPoller]
        rfl
      · rw [notInProgress_eq_of_result_eq _ _ (loadMessages_result _ _ _)]
        rfl
    · unfold checkConversationStatus
      dsimp only
      rw [h]
      rw [if_neg (by decide), if_neg (by decide), if_neg (by decide), if_pos rfl]
      constructor
      · rw [loadMessages_conversationPoller]
        rfl
      · rw [notInProgress_eq_of_result_eq _ _ (loadMessages_result _ _ _)]
        rfl
  exact ⟨base.1, base.2,
    fun evts => foldl_stepNoTrigger_preserves evts _ base.1 base.2⟩

/-- C5 witness: a `completed` status on a concrete polling state stops the
poller, and it stays stopped across a poller tick and a new-conversation
click. -/
theorem terminal_status_stops_polling_witness :
    (checkConversationStatus { sampleState with conversationPoller := some "ctx-1" } "ctx-1"
      (Except.ok ⟨"completed", some 3, some 3, some 4, some 13, none⟩)
      (Except.ok ⟨none, none⟩)).conversationPoller = none ∧
    notInProgress (checkConversationStatus { sampleState with conversationPoller := some "ctx-1" }
      "ctx-1" (Except.ok ⟨"completed", some 3, some 3, some 4, some 13, none⟩)
      (Except.ok ⟨none, none⟩)) = true ∧
    ([UIEvent.conversationTick (Except.ok ⟨"running", some 1, some 3, some 4, some 2, none⟩)
        (Except.ok ⟨none, none⟩), UIEvent.newConversation].foldl stepNoTrigger
      (checkConversationStatus { sampleState with conversationPoller := some "ctx-1" } "ctx-1"
        (Except.ok ⟨"completed", some 3, some 3, some 4, some 13, none⟩)
        (Except.ok ⟨none, none⟩))).conversationPoller = none := by
  have h := terminal_status_stops_polling
    { sampleState with conversationPoller := some "ctx-1" } "ctx-1"
    ⟨"completed", some 3, some 3, some 4, some 13, none⟩
    (Except.ok ⟨none, none⟩) (Or.inl rfl)
  exact ⟨h.1, h.2.1,
    (h.2.2 [UIEvent.conversationTick (Except.ok ⟨"running", some 1, some 3, some 4, some 2, none⟩)
      (Except.ok ⟨none, none⟩), UIEvent.newConversation]).1⟩

/-- C1: for every successful trigger response, a `started` status starts
conversation polling on the returned context and shows the `Conversation
Started` panel; any other status leaves the conversation poller untouched,
renders the synchronous `Trigger Result` panel (with the returned
`responses` and the `rounds_completed / max_rounds` detail) and updates
the rounds display; in both cases the returned `context_id` becomes the
active context. -/
theorem triggerAgents_success (s : UIState) (d : TriggerResponse)
    (m : Except String MessagesResponse) (hmsg : messageHasText s = true) :
    (triggerAgents s (Except.ok d) m).1.currentContextId = jsTrim d.context_id ∧
    (d.status = "started" →
      (triggerAgents s (Except.ok d) m).1.conversationPoller = some d.context_id ∧
      ∃ r, (triggerAgents s (Except.ok d) m).1.result = some r ∧
        r.heading = "Conversation Started") ∧
    (d.status ≠ "started" →
      (triggerAgents s (Except.ok d) m).1.conversationPoller = s.conversationPoller ∧
      (triggerAgents s (Except.ok d) m).1.rounds =
        ⟨jsOrNat d.rounds_completed 0, jsOrNat d.max_rounds 3, true⟩ ∧
      ∃ r, (triggerAgents s (Except.ok d) m).1.result = some r ∧
        r.heading = "Trigger Result" ∧ r.responses = d.responses ∧
        ("Conversation rounds completed: " ++ toString (jsNullishNat d.rounds_completed 0)
          ++ " / " ++ toString (jsNullishNat d.max_rounds 3)) ∈ r.details.getD []) := by
  unfold triggerAgents
  rw [hmsg]
  rw [if_neg (by decide)]
  dsimp only
  refine ⟨?_, fun hst => ⟨?_, ?_⟩, fun hst => ⟨?_, ?_, ?_⟩⟩
  · exact loadMessages_currentContextId _ d.context_id m (by split <;> rfl) (by split <;> rfl)
  · rw [if_pos hst]
    dsimp only [startMessagesPolling, stopMessagesPolling]
    rw [loadMessages_conversationPoller]
    rfl
  · rw [if_pos hst]
    dsimp only [startMessagesPolling, stopMessagesPolling]
    rw [loadMessages_result]
    exact ⟨_, rfl, rfl⟩
  · rw [if_neg hst]
    dsimp only [startMessagesPolling, stopMessagesPolling]
    rw [loadMessages_conversationPoller]
    rfl
  · rw [if_neg hst]
    dsimp only [startMessagesPolling, stopMessagesPolling]
    rw [loadMessages_rounds_of_visible _ _ _ rfl]
    rfl
  · rw [if_neg hst]
    dsimp only [startMessagesPolling, stopMessagesPolling]
    rw [loadMessages_result]
    refine ⟨_, rfl, rfl, rfl, ?_⟩
    dsimp only [triggerSyncResult, Option.map, Option.getD]
    rw [List.mem_filter]
    constructor
    · simp
    · rw [bne_iff_ne]
      exact string_append_ne_empty _ _
        (string_append_ne_empty _ _ (string_append_ne_empty _ _ (by decide)))

/-- C1 witness: a concrete `started` response starts polling on the
returned context and adopts it, and a concrete synchronous response leaves
the poller untouched and updates the rounds display. -/
theorem triggerAgents_success_witness :
    (triggerAgents { sampleState with message := "hi" }
        (Except.ok ⟨"started", none, "ctx-9", some 4, none, none, none⟩)
        (Except.ok ⟨none, none⟩)).1.conversationPoller = some "ctx-9" ∧
    (triggerAgents { sampleState with message := "hi" }
        (Except.ok ⟨"started", none, "ctx-9", some 4, none, none, none⟩)
        (Except.ok ⟨none, none⟩)).1.currentContextId = jsTrim "ctx-9" ∧
    (triggerAgents { sampleState with message := "hi" }
        (Except.ok ⟨"completed", none, "ctx-9", some 4, some ["ok"], some 1, some 3⟩)
        (Except.ok ⟨none, none⟩)).1.conversationPoller
      = ({ sampleState with message := "hi" } : UIState).conversationPoller ∧
    (triggerAgents { sampleState with message := "hi" }
        (Except.ok ⟨"completed", none, "ctx-9", some 4, some ["ok"], some 1, some 3⟩)
        (Except.ok ⟨none, none⟩)).1.rounds = ⟨jsOrNat (some 1) 0, jsOrNat (some 3) 3, true⟩ := by
  have h1 := triggerAgents_success { sampleState with message := "hi" }
    ⟨"started", none, "ctx-9", some 4, none, none, none⟩ (Except.ok ⟨none, none⟩) (by decide)
  have h2 := triggerAgents_success { sampleState with message := "hi" }
    ⟨"completed", none, "ctx-9", some 4, some ["ok"], some 1, some 3⟩ (Except.ok ⟨none, none⟩)
    (by decide)
  exact ⟨(h1.2.1 rfl).1, h1.1, (h2.2.2 (by decide)).1, (h2.2.2 (by decide)).2.1⟩

end MCPeeps
